import Mathlib

/-!
Verification development for the pdcurses session-lifecycle core
(apps/graphics/pdcurs34/pdcurses/pdc_initscr.c).

The embedding models the process-wide curses state: the session record SP,
the three screen windows (curscr, stdscr, pdc_lastscr), the LINES/COLS
globals, and the pending ripped-off-line registrations. Platform-driver and
window-buffer-engine operations (PDC_scr_open, newwin, wresize, the slk
subsystem) live outside the excerpt; they are modelled from the spec as
recorded in each doc comment. All lifecycle logic (Xinitscr, endwin,
isendwin, delscreen, resize_term, is_termresized) is translated directly
from pdc_initscr.c.
-/

namespace PdcInitscr

/-- OK return code of curses.h: 0. -/
def OK : Int := 0

/-- ERR return code of curses.h: -1. -/
def ERR : Int := -1

/-- One window buffer of the window engine, reduced to the fields this
development tracks: the geometry passed to newwin or wresize, the
clear-on-next-refresh flag (the _clear field), and whether the buffer is
marked touched. Cell contents and attributes are outside the model. -/
structure Window where
  nlines : Int
  ncols : Int
  begy : Int
  begx : Int
  clearFlag : Bool
  touched : Bool
deriving DecidableEq, Repr

/-- Modelled from the spec: create_window(h,w,y,x) of the window buffer
engine (spec section 1); newwin itself is in pdcurses window code outside
this excerpt. Allocation is assumed to succeed, so the exit(2)/exit(1)
paths of Xinitscr for a failed newwin are unreachable in the model. The
initial clear flag and touch state are model choices; the lifecycle code
under test overwrites the clear flag wherever it relies on it. -/
def newwin (nlines ncols begy begx : Int) : Window :=
  { nlines := nlines, ncols := ncols, begy := begy, begx := begx,
    clearFlag := false, touched := true }

/-- Modelled from the spec: resize_window(handle,h,w) of the window buffer
engine (spec section 1); wresize is in pdcurses window code outside this
excerpt. Only the geometry changes. -/
def wresize (w : Window) (nlines ncols : Int) : Window :=
  { w with nlines := nlines, ncols := ncols }

/-- Modelled from the spec: mark_dirty(handle) of the window buffer engine
(spec section 1); touchwin is outside this excerpt. -/
def touchwin (w : Window) : Window :=
  { w with touched := true }

/-- Modelled from the spec: the inverse of mark_dirty used by Xinitscr when
preserving screen content; untouchwin is outside this excerpt. -/
def untouchwin (w : Window) : Window :=
  { w with touched := false }

/-- The session record SP, restricted to the fields pdc_initscr.c reads or
writes. Field names follow the SCREEN structure of curspriv.h. -/
structure Screen where
  alive : Bool
  lines : Int
  cols : Int
  slklines : Int
  linesrippedoffcnt : Int
  linesrippedoffontop : Int
  autocr : Bool
  raw_out : Bool
  raw_inp : Bool
  cbreak : Bool
  echo : Bool
  save_key_modifiers : Bool
  return_key_modifiers : Bool
  visibility : Int
  resized : Bool
  trap_mbe : Int
  map_mbe_to_key : Int
  delaytenths : Int
  line_color : Int
  orig_cursor : Int
  preserve : Bool
  slk_winptr : Option Window
deriving DecidableEq, Repr

/-- The process-wide curses state: SP, the three screen windows, the
LINES/COLS globals, the pending ripped-off-line registrations (the line tag
of each entry of linesripped, in registration order; linesrippedoff is the
list length), and, as an observation of the callback effects, the windows
handed to the registration initializers by the most recent create. -/
structure CState where
  sp : Option Screen
  curscr : Option Window
  stdscr : Option Window
  pdc_lastscr : Option Window
  LINES : Int
  COLS : Int
  linesripped : List Int
  rippedWins : List Window
deriving DecidableEq, Repr

/-- The environment a lifecycle call runs in: the platform driver results
and the static configuration. Modelled from the spec (section 1): the
driver exposes open_terminal, get_rows, get_columns and resize_physical,
and the slk subsystem exposes its configured row count. -/
structure Env where
  scrOpenOk : Bool
  physRows : Int
  physCols : Int
  slkRows : Int
  preserve : Bool
  cursorMode : Int
  resizeOk : Bool
  wresizeOk : Bool
  newRows : Int
  newCols : Int
deriving DecidableEq, Repr

/-- Modelled from the spec: open_terminal (spec section 1). PDC_scr_open is
platform code outside this excerpt; on success it allocates the session
record and fills in the physical dimensions reported by the driver. The
session is not alive until Xinitscr completes. -/
def PDC_scr_open (env : Env) : Screen :=
  { alive := false, lines := env.physRows, cols := env.physCols,
    slklines := 0, linesrippedoffcnt := 0, linesrippedoffontop := 0,
    autocr := false, raw_out := false, raw_inp := false, cbreak := false,
    echo := false, save_key_modifiers := false,
    return_key_modifiers := false, visibility := 0, resized := false,
    trap_mbe := 0, map_mbe_to_key := 0, delaytenths := 0, line_color := 0,
    orig_cursor := 0, preserve := env.preserve, slk_winptr := none }

/-- Mode-flag initialization block of Xinitscr (pdc_initscr.c:166-181),
applied to the fresh session record; the cursor mode comes from
PDC_get_cursor_mode, a platform query modelled through the environment. -/
def initDefaults (scr : Screen) (cursorMode : Int) : Screen :=
  { scr with
    autocr := true, raw_out := false, raw_inp := false, cbreak := true,
    save_key_modifiers := false, return_key_modifiers := false,
    echo := true, visibility := 1, resized := false, trap_mbe := 0,
    map_mbe_to_key := 0, linesrippedoffcnt := 0, linesrippedoffontop := 0,
    delaytenths := 0, line_color := -1, orig_cursor := cursorMode }

/-- Modelled from the spec: PDC_slk_initialize of the slk subsystem
(outside this excerpt) publishes the configured slk row count into the
session record and, when the count is nonzero and no slk window exists yet,
materializes the slk window at the bottom of the terminal (spec section 3).
An already existing slk window is kept. -/
def PDC_slk_setup (env : Env) (scr : Screen) (cols : Int) : Screen :=
  { scr with
    slklines := env.slkRows,
    slk_winptr :=
      match scr.slk_winptr with
      | some w => some w
      | none =>
        if env.slkRows = 0 then none
        else some (newwin env.slkRows cols (scr.lines - env.slkRows) 0) }

/-- Ripped-off-line loop of Xinitscr (pdc_initscr.c:215-229), walking the
pending registrations in registration order with the running LINES value.
A registration whose line tag is negative goes to the bottom: its 1-row
window is created at the current LINES - 1. Any other registration goes to
the top: its window is created at the current linesrippedoffontop, which is
then incremented. Every iteration increments linesrippedoffcnt and
decrements LINES. The windows handed to the registration callbacks are
accumulated in order. -/
def processRips : List Int → Int → Int → Screen → List Window →
    Screen × Int × List Window
  | [], lines, _cols, scr, acc => (scr, lines, acc)
  | line :: rest, lines, cols, scr, acc =>
    if line < 0 then
      processRips rest (lines - 1) cols
        { scr with linesrippedoffcnt := scr.linesrippedoffcnt + 1 }
        (acc ++ [newwin 1 cols (lines - 1) 0])
    else
      processRips rest (lines - 1) cols
        { scr with linesrippedoffontop := scr.linesrippedoffontop + 1,
                   linesrippedoffcnt := scr.linesrippedoffcnt + 1 }
        (acc ++ [newwin 1 cols scr.linesrippedoffontop 0])

/-- Result of a create call. retNull is the NULL return (second create
while alive, or PDC_scr_open failure); exited models the exit() calls the
source makes on fatal conditions; ok carries the returned stdscr. -/
inductive CreateResult where
  | retNull
  | exited (code : Int)
  | ok (w : Window)
deriving DecidableEq, Repr

/-- Body of Xinitscr after the alive guard (pdc_initscr.c:160-270).
PDC_init_atrtab, the mouse-status resets, def_shell_mode and the ttytype
string are outside the modelled state and have no effect on it. wattrset,
werase and wclrtobot act on cell contents, which the model does not carry.
On the exit(4) path the registrations are not consumed and no window has
been created yet. -/
def createBody (env : Env) (s : CState) : CreateResult × CState :=
  if env.scrOpenOk = false then
    (CreateResult.retNull, s)
  else
    let scr := initDefaults (PDC_scr_open env) env.cursorMode
    let lines0 := scr.lines
    let cols0 := scr.cols
    if lines0 < 2 ∨ cols0 < 2 then
      (CreateResult.exited 4,
       { s with sp := some scr, LINES := lines0, COLS := cols0 })
    else
      let curscr0 := newwin lines0 cols0 0 0
      let lastscr0 := newwin lines0 cols0 0 0
      let scr1 := PDC_slk_setup env scr cols0
      let lines1 := lines0 - scr1.slklines
      match processRips s.linesripped lines1 cols0 scr1 [] with
      | (scr2, lines2, ripped) =>
        let stdscr0 := newwin lines2 cols0 scr2.linesrippedoffontop 0
        if scr2.preserve = true then
          (CreateResult.ok { stdscr0 with clearFlag := false, touched := false },
           { sp := some { scr2 with alive := true },
             curscr := some { curscr0 with clearFlag := false, touched := false },
             stdscr := some { stdscr0 with clearFlag := false, touched := false },
             pdc_lastscr := some lastscr0,
             LINES := lines2, COLS := cols0,
             linesripped := [], rippedWins := ripped })
        else
          (CreateResult.ok stdscr0,
           { sp := some { scr2 with alive := true },
             curscr := some { curscr0 with clearFlag := true },
             stdscr := some stdscr0,
             pdc_lastscr := some lastscr0,
             LINES := lines2, COLS := cols0,
             linesripped := [], rippedWins := ripped })

/-- Xinitscr (pdc_initscr.c:146-271): the alive guard of lines 155-158,
then the create body. -/
def Xinitscr (env : Env) (s : CState) : CreateResult × CState :=
  match s.sp with
  | some scr =>
    if scr.alive = true then (CreateResult.retNull, s) else createBody env s
  | none => createBody env s

/-- initscr (pdc_initscr.c:273-278): Xinitscr with no arguments; argc and
argv only reach PDC_scr_open, which the environment models. -/
def initscr (env : Env) (s : CState) : CreateResult × CState :=
  Xinitscr env s

/-- endwin (pdc_initscr.c:280-295). def_prog_mode and PDC_scr_close save
the tty mode and release the terminal without touching the modelled state.
The source then writes SP->alive unconditionally; with a null SP that is a
null dereference, modelled as none. -/
def endwin (s : CState) : Option (Int × CState) :=
  match s.sp with
  | none => none
  | some scr => some (OK, { s with sp := some { scr with alive := false } })

/-- isendwin (pdc_initscr.c:297-305): false when SP is null, otherwise the
negation of the alive flag; a pure query. -/
def isendwin (s : CState) : Bool :=
  match s.sp with
  | none => false
  | some scr => !scr.alive

/-- Modelled from the spec: resume (spec section 4.2) re-opens the platform
terminal with the saved mode and sets alive to true; the source realizes
resumption implicitly through a later refresh/doupdate, so no function of
pdc_initscr.c corresponds to it directly. With no session record the alive
write has nowhere to go, modelled as none. -/
def resume (s : CState) : Option CState :=
  match s.sp with
  | none => none
  | some scr => some { s with sp := some { scr with alive := true } }

/-- delscreen (pdc_initscr.c:329-362). The only property of the argument
the source inspects is pointer equality with SP, passed here as the flag
spIsArg. When the argument differs from SP the call returns at once. When
it equals SP, the source frees the slk subsystem, deletes the three
windows, clears their globals, writes SP->alive and frees SP; with SP null
(so a null argument) the writes through SP dereference null, modelled as
none. -/
def delscreen (spIsArg : Bool) (s : CState) : Option CState :=
  if spIsArg = false then
    some s
  else
    match s.sp with
    | none => none
    | some _ =>
      some { s with sp := none, curscr := none, stdscr := none,
                    pdc_lastscr := none }

/-- resize_term (pdc_initscr.c:364-406). The guard checks stdscr and the
platform resize result only; PDC_resize_screen, PDC_get_rows and
PDC_get_columns are platform code modelled through the environment. The
wresize calls are gated by one environment flag; when it is cleared the
first wresize fails and the function returns ERR with the dimensions
already updated, matching the early return of the source. werase acts on
cell contents only. SP is dereferenced without a null check; stdscr
non-null with SP null (never reachable through the lifecycle operations) is
modelled as none, as is a missing curscr or pdc_lastscr. The source never
writes SP->resized. -/
def resize_term (env : Env) (nlines ncols : Int) (s : CState) :
    Option (Int × CState) :=
  match s.stdscr with
  | none => some (ERR, s)
  | some stdw =>
    if env.resizeOk = false then
      some (ERR, s)
    else
      match s.sp with
      | none => none
      | some scr =>
        let scr1 := { scr with lines := env.newRows, cols := env.newCols }
        let lines1 := env.newRows - scr.linesrippedoffcnt - scr.slklines
        let cols1 := env.newCols
        if env.wresizeOk = false then
          some (ERR, { s with sp := some scr1, LINES := lines1, COLS := cols1 })
        else
          match s.curscr, s.pdc_lastscr with
          | some cw, some lw =>
            let cw1 := { (wresize cw env.newRows env.newCols) with clearFlag := true }
            let stdw1 := wresize stdw lines1 cols1
            let lw1 := wresize lw env.newRows env.newCols
            let scr2 :=
              match scr1.slk_winptr with
              | none => scr1
              | some sw =>
                PDC_slk_setup env
                  { scr1 with slk_winptr := some (wresize sw scr1.slklines cols1) }
                  cols1
            some (OK,
              { s with
                sp := some scr2, curscr := some cw1,
                stdscr := some (touchwin stdw1), pdc_lastscr := some lw1,
                LINES := lines1, COLS := cols1 })
          | _, _ => none

/-- is_termresized (pdc_initscr.c:408-416): reads SP->resized with no null
check, so a null SP is a null dereference, modelled as none. -/
def is_termresized (s : CState) : Option Bool :=
  match s.sp with
  | none => none
  | some scr => some scr.resized

/-- The empty process state: no session, no windows, no pending
registrations. -/
def state0 : CState :=
  { sp := none, curscr := none, stdscr := none, pdc_lastscr := none,
    LINES := 0, COLS := 0, linesripped := [], rippedWins := [] }

/-- Sample environment: the driver reports a 24 by 80 terminal, slk is
disabled, every platform call succeeds, and a later physical resize reports
30 by 100. -/
def env24 : Env :=
  { scrOpenOk := true, physRows := 24, physCols := 80, slkRows := 0,
    preserve := false, cursorMode := 1, resizeOk := true, wresizeOk := true,
    newRows := 30, newCols := 100 }

/-- Sample environment reporting a 1 by 80 terminal. -/
def env1x80 : Env :=
  { env24 with physRows := 1, physCols := 80 }

/-- Empty state with three pending ripped-off-line registrations in
registration order: top, top, bottom. -/
def stateRips : CState :=
  { state0 with linesripped := [1, 1, -1] }

/-- State after a successful create on the 24 by 80 terminal. -/
def aliveState : CState :=
  (Xinitscr env24 state0).2

/-- The stdscr returned by that create. -/
def aliveWin : Window :=
  match (Xinitscr env24 state0).1 with
  | CreateResult.ok w => w
  | _ => newwin 0 0 0 0

/-- Fallback session record for projections. -/
def defaultScreen : Screen :=
  PDC_scr_open env24

/-- The session record of aliveState. -/
def aliveScr : Screen :=
  aliveState.sp.getD defaultScreen

/-- State after create followed by endwin: the suspended state, windows
still present, alive cleared. -/
def suspState : CState :=
  ((endwin aliveState).getD (OK, aliveState)).2

/-- The alive state with the resized-pending flag set, as the platform
driver sets it on an out-of-band user resize. -/
def resizedPendingState : CState :=
  match aliveState.sp with
  | some scr => { aliveState with sp := some { scr with resized := true } }
  | none => aliveState

/-- State after a successful resize of aliveState, with the driver
reporting 30 by 100. -/
def resizedState : CState :=
  ((resize_term env24 0 0 aliveState).getD (OK, aliveState)).2

lemma processRips_screen_fields (rips : List Int) (lines cols : Int)
    (scr : Screen) (acc : List Window) :
    (processRips rips lines cols scr acc).1.lines = scr.lines ∧
    (processRips rips lines cols scr acc).1.slklines = scr.slklines ∧
    (processRips rips lines cols scr acc).1.autocr = scr.autocr ∧
    (processRips rips lines cols scr acc).1.cbreak = scr.cbreak ∧
    (processRips rips lines cols scr acc).1.echo = scr.echo ∧
    (processRips rips lines cols scr acc).1.raw_inp = scr.raw_inp ∧
    (processRips rips lines cols scr acc).1.raw_out = scr.raw_out ∧
    (processRips rips lines cols scr acc).1.resized = scr.resized := by
  induction rips generalizing lines scr acc with
  | nil => simp [processRips]
  | cons line rest ih =>
    by_cases hl : line < 0
    · simpa [processRips, hl] using
        ih (lines - 1)
          { scr with linesrippedoffcnt := scr.linesrippedoffcnt + 1 }
          (acc ++ [newwin 1 cols (lines - 1) 0])
    · simpa [processRips, hl] using
        ih (lines - 1)
          { scr with linesrippedoffontop := scr.linesrippedoffontop + 1,
                     linesrippedoffcnt := scr.linesrippedoffcnt + 1 }
          (acc ++ [newwin 1 cols scr.linesrippedoffontop 0])

lemma processRips_count (rips : List Int) (lines cols : Int)
    (scr : Screen) (acc : List Window) :
    (processRips rips lines cols scr acc).1.linesrippedoffcnt
      = scr.linesrippedoffcnt + rips.length ∧
    (processRips rips lines cols scr acc).2.1 = lines - rips.length := by
  induction rips generalizing lines scr acc with
  | nil => simp [processRips]
  | cons line rest ih =>
    by_cases hl : line < 0
    · obtain ⟨hc, hl2⟩ :=
        ih (lines - 1)
          { scr with linesrippedoffcnt := scr.linesrippedoffcnt + 1 }
          (acc ++ [newwin 1 cols (lines - 1) 0])
      simp only [processRips, if_pos hl, hc, hl2, List.length_cons]
      constructor <;> push_cast <;> ring
    · obtain ⟨hc, hl2⟩ :=
        ih (lines - 1)
          { scr with linesrippedoffontop := scr.linesrippedoffontop + 1,
                     linesrippedoffcnt := scr.linesrippedoffcnt + 1 }
          (acc ++ [newwin 1 cols scr.linesrippedoffontop 0])
      simp only [processRips, if_neg hl, hc, hl2, List.length_cons]
      constructor <;> push_cast <;> ring

lemma pr_lines (rips : List Int) (lines cols : Int) (scr : Screen)
    (acc : List Window) :
    (processRips rips lines cols scr acc).1.lines = scr.lines :=
  (processRips_screen_fields rips lines cols scr acc).1

lemma pr_slklines (rips : List Int) (lines cols : Int) (scr : Screen)
    (acc : List Window) :
    (processRips rips lines cols scr acc).1.slklines = scr.slklines :=
  (processRips_screen_fields rips lines cols scr acc).2.1

lemma pr_autocr (rips : List Int) (lines cols : Int) (scr : Screen)
    (acc : List Window) :
    (processRips rips lines cols scr acc).1.autocr = scr.autocr :=
  (processRips_screen_fields rips lines cols scr acc).2.2.1

lemma pr_cbreak (rips : List Int) (lines cols : Int) (scr : Screen)
    (acc : List Window) :
    (processRips rips lines cols scr acc).1.cbreak = scr.cbreak :=
  (processRips_screen_fields rips lines cols scr acc).2.2.2.1

lemma pr_echo (rips : List Int) (lines cols : Int) (scr : Screen)
    (acc : List Window) :
    (processRips rips lines cols scr acc).1.echo = scr.echo :=
  (processRips_screen_fields rips lines cols scr acc).2.2.2.2.1

lemma pr_raw_inp (rips : List Int) (lines cols : Int) (scr : Screen)
    (acc : List Window) :
    (processRips rips lines cols scr acc).1.raw_inp = scr.raw_inp :=
  (processRips_screen_fields rips lines cols scr acc).2.2.2.2.2.1

lemma pr_raw_out (rips : List Int) (lines cols : Int) (scr : Screen)
    (acc : List Window) :
    (processRips rips lines cols scr acc).1.raw_out = scr.raw_out :=
  (processRips_screen_fields rips lines cols scr acc).2.2.2.2.2.2.1

lemma pr_resized (rips : List Int) (lines cols : Int) (scr : Screen)
    (acc : List Window) :
    (processRips rips lines cols scr acc).1.resized = scr.resized :=
  (processRips_screen_fields rips lines cols scr acc).2.2.2.2.2.2.2

lemma pr_cnt (rips : List Int) (lines cols : Int) (scr : Screen)
    (acc : List Window) :
    (processRips rips lines cols scr acc).1.linesrippedoffcnt
      = scr.linesrippedoffcnt + rips.length :=
  (processRips_count rips lines cols scr acc).1

lemma pr_lines2 (rips : List Int) (lines cols : Int) (scr : Screen)
    (acc : List Window) :
    (processRips rips lines cols scr acc).2.1 = lines - rips.length :=
  (processRips_count rips lines cols scr acc).2

lemma createBody_ok (env : Env) (s : CState) (w : Window) (t : CState)
    (h : createBody env s = (CreateResult.ok w, t)) :
    ∃ scr, t.sp = some scr ∧
      scr.lines = t.LINES + scr.linesrippedoffcnt + scr.slklines ∧
      scr.autocr = true ∧ scr.cbreak = true ∧ scr.echo = true ∧
      scr.raw_inp = false ∧ scr.raw_out = false ∧ scr.resized = false := by
  unfold createBody at h
  split at h
  · simp at h
  · dsimp only at h
    split at h
    · simp at h
    · split at h <;>
      · injection h with hw ht
        subst ht
        refine ⟨_, rfl, ?_, ?_, ?_, ?_, ?_, ?_, ?_⟩ <;>
          simp [pr_lines, pr_slklines, pr_cnt, pr_lines2, pr_autocr,
            pr_cbreak, pr_echo, pr_raw_inp, pr_raw_out, pr_resized,
            PDC_slk_setup, initDefaults, PDC_scr_open] <;>
          omega

lemma Xinitscr_ok (env : Env) (s : CState) (w : Window) (t : CState)
    (h : Xinitscr env s = (CreateResult.ok w, t)) :
    ∃ scr, t.sp = some scr ∧
      scr.lines = t.LINES + scr.linesrippedoffcnt + scr.slklines ∧
      scr.autocr = true ∧ scr.cbreak = true ∧ scr.echo = true ∧
      scr.raw_inp = false ∧ scr.raw_out = false ∧ scr.resized = false := by
  unfold Xinitscr at h
  rcases hsp : s.sp with _ | scr0 <;> simp only [hsp] at h
  · exact createBody_ok env s w t h
  · split at h
    · simp at h
    · exact createBody_ok env s w t h

/-- C1: after every successful create (Xinitscr returning stdscr) and after
every successful resize (resize_term returning OK), the full physical
height SP.lines equals LINES plus the ripped-off-line count plus the slk
row count. For resize the slk row count published by the slk subsystem
must agree with the count stored in the session whenever an slk window
exists, which every state produced under a fixed configuration satisfies. -/
theorem C1_height_partition (env : Env) (s : CState) :
    (∀ w t, Xinitscr env s = (CreateResult.ok w, t) →
      ∃ scr, t.sp = some scr ∧
        scr.lines = t.LINES + scr.linesrippedoffcnt + scr.slklines) ∧
    (∀ nlines ncols t, resize_term env nlines ncols s = some (OK, t) →
      (∀ scr0, s.sp = some scr0 →
        scr0.slk_winptr = none ∨ scr0.slklines = env.slkRows) →
      ∃ scr, t.sp = some scr ∧
        scr.lines = t.LINES + scr.linesrippedoffcnt + scr.slklines) := by
  constructor
  · intro w t h
    obtain ⟨scr, hsp, hinv, -⟩ := Xinitscr_ok env s w t h
    exact ⟨scr, hsp, hinv⟩
  · intro nlines ncols t h hslk
    unfold resize_term at h
    rcases hstd : s.stdscr with _ | stdw <;> simp only [hstd] at h
    · rw [Option.some.injEq, Prod.mk.injEq] at h
      exact absurd h.1 (by decide)
    · split at h
      · rw [Option.some.injEq, Prod.mk.injEq] at h
        exact absurd h.1 (by decide)
      · rcases hsp : s.sp with _ | scr0 <;> simp only [hsp] at h
        · simp at h
        · split at h
          · rw [Option.some.injEq, Prod.mk.injEq] at h
            exact absurd h.1 (by decide)
          · split at h
            · rw [Option.some.injEq, Prod.mk.injEq] at h
              obtain ⟨-, ht⟩ := h
              subst ht
              rcases hslkw : scr0.slk_winptr with _ | sw
              · refine ⟨_, rfl, ?_⟩
                simp [hslkw]
                omega
              · rcases hslk scr0 hsp with hnone | hrows
                · rw [hslkw] at hnone
                  simp at hnone
                · refine ⟨_, rfl, ?_⟩
                  simp [hslkw, PDC_slk_setup, hrows]
                  omega
            · simp at h

/-- C1 witness: the invariant instantiated after the concrete 24 by 80
create and after the concrete resize to 30 by 100. -/
theorem C1_height_partition_witness :
    (∃ scr, (Xinitscr env24 state0).2.sp = some scr ∧
      scr.lines = (Xinitscr env24 state0).2.LINES
        + scr.linesrippedoffcnt + scr.slklines) ∧
    (∃ scr, resizedState.sp = some scr ∧
      scr.lines = resizedState.LINES
        + scr.linesrippedoffcnt + scr.slklines) :=
  ⟨(C1_height_partition env24 state0).1 aliveWin (Xinitscr env24 state0).2
      rfl,
   (C1_height_partition env24 aliveState).2 0 0 resizedState rfl
      (by
        intro scr0 h
        have h2 : aliveScr = scr0 :=
          Option.some.inj ((rfl : aliveState.sp = some aliveScr).symm.trans h)
        rw [← h2]
        exact Or.inl rfl)⟩

/-- C2: a second create while a session is alive returns NULL and leaves
the whole process state, the session record and all windows included,
exactly as before the call. -/
theorem C2_second_create_rejected (env : Env) (s : CState) (scr : Screen)
    (h : s.sp = some scr) (ha : scr.alive = true) :
    Xinitscr env s = (CreateResult.retNull, s) := by
  unfold Xinitscr
  rw [h]
  simp [ha]

/-- C2 witness: a second create on the state produced by a successful
create is rejected without any state change. -/
theorem C2_second_create_rejected_witness :
    Xinitscr env24 aliveState = (CreateResult.retNull, aliveState) :=
  C2_second_create_rejected env24 aliveState aliveScr rfl rfl

/-- C3 counterexample: on a terminal reported as 1 by 80, create does not
return an error to the caller: the source calls exit(4), and at that point
the session record allocated by PDC_scr_open is still present, so the
claimed return of TerminalTooSmallError with the session back in UNCREATED
does not match the code. -/
theorem C3_too_small_counterexample :
    (Xinitscr env1x80 state0).1 = CreateResult.exited 4 ∧
    (Xinitscr env1x80 state0).1 ≠ CreateResult.retNull ∧
    (∀ w, (Xinitscr env1x80 state0).1 ≠ CreateResult.ok w) ∧
    (Xinitscr env1x80 state0).2.sp ≠ none := by
  refine ⟨rfl, by decide, ?_, by decide⟩
  intro w h
  rw [show (Xinitscr env1x80 state0).1 = CreateResult.exited 4 from rfl] at h
  exact CreateResult.noConfusion h

/-- C3 amended: when the driver reports either dimension below 2, create
terminates the process with exit code 4; at that point no window has been
created and alive has never been set, but the session record allocated by
the open call has not been freed. -/
theorem C3_too_small_exits (env : Env) (s : CState)
    (hopen : env.scrOpenOk = true)
    (hsmall : env.physRows < 2 ∨ env.physCols < 2)
    (hno : s.sp = none) :
    (Xinitscr env s).1 = CreateResult.exited 4 ∧
    (Xinitscr env s).2.curscr = s.curscr ∧
    (Xinitscr env s).2.stdscr = s.stdscr ∧
    (Xinitscr env s).2.pdc_lastscr = s.pdc_lastscr ∧
    ∃ scr, (Xinitscr env s).2.sp = some scr ∧ scr.alive = false := by
  unfold Xinitscr createBody
  rw [hno]
  simp only [hopen, initDefaults, PDC_scr_open]
  rw [if_neg (by simp)]
  rw [if_pos hsmall]
  simp

/-- C3 witness for the amended statement, at the 1 by 80 terminal. -/
theorem C3_too_small_exits_witness :
    (Xinitscr env1x80 state0).1 = CreateResult.exited 4 ∧
    (Xinitscr env1x80 state0).2.curscr = state0.curscr ∧
    (Xinitscr env1x80 state0).2.stdscr = state0.stdscr ∧
    (Xinitscr env1x80 state0).2.pdc_lastscr = state0.pdc_lastscr ∧
    ∃ scr, (Xinitscr env1x80 state0).2.sp = some scr ∧ scr.alive = false :=
  C3_too_small_exits env1x80 state0 rfl (Or.inl (by decide)) rfl

/-- C4 counterexample: with registrations top, top, bottom pending on a 24
by 80 terminal with slk disabled, the bottom registration window is placed
at row 21, not at row 23 as the claim states, because the source places a
bottom ripped-off line at the current LINES - 1 after LINES has already
been reduced by the earlier top registrations. -/
theorem C4_layout_counterexample :
    ((Xinitscr env24 stateRips).2.rippedWins.map Window.begy) = [0, 1, 21] ∧
    ((Xinitscr env24 stateRips).2.rippedWins.map Window.begy) ≠ [0, 1, 23] := by
  decide

/-- C4 amended: in that scenario the two top registrations get 1-row
windows at rows 0 and 1, the bottom registration gets its 1-row window at
row 21, and stdscr covers rows 2 through 22, 21 rows by 80 columns. -/
theorem C4_layout_amended :
    ((Xinitscr env24 stateRips).2.rippedWins.map
      (fun w => (w.nlines, w.ncols, w.begy, w.begx)))
      = [(1, 80, 0, 0), (1, 80, 1, 0), (1, 80, 21, 0)] ∧
    ((Xinitscr env24 stateRips).2.stdscr.map
      (fun w => (w.nlines, w.ncols, w.begy, w.begx))) = some (21, 80, 2, 0) ∧
    (Xinitscr env24 stateRips).2.LINES = 21 ∧
    (Xinitscr env24 stateRips).2.COLS = 80 := by
  decide

/-- C5 counterexample: in the suspended state reached by create then
endwin, the session is not alive (isendwin is true), yet resize_term
returns OK and resizes stdscr from 24 to 30 rows: the guard of the source
checks stdscr, not the alive flag. -/
theorem C5_suspended_resize_counterexample :
    isendwin suspState = true ∧
    (resize_term env24 0 0 suspState).map (fun p => p.1) = some OK ∧
    suspState.stdscr.map Window.nlines = some 24 ∧
    (resize_term env24 0 0 suspState).map
      (fun p => p.2.stdscr.map Window.nlines) = some (some 30) := by
  decide

/-- C5 amended: resize_term fails with ERR and changes nothing exactly in
the cases its guard covers: when stdscr is null (before any create, or
after destroy), and when the platform refuses the resize; the alive flag
is never consulted, so a suspended session is resized normally. -/
theorem C5_resize_guard_amended (env : Env) (nlines ncols : Int)
    (s : CState) :
    (s.stdscr = none → resize_term env nlines ncols s = some (ERR, s)) ∧
    (env.resizeOk = false → resize_term env nlines ncols s = some (ERR, s)) := by
  constructor
  · intro h
    unfold resize_term
    rw [h]
  · intro h
    unfold resize_term
    rcases hstd : s.stdscr with _ | stdw <;> simp [h]

/-- C5 witness for the amended statement: the no-windows case and the
platform-refusal case. -/
theorem C5_resize_guard_amended_witness :
    resize_term env24 0 0 state0 = some (ERR, state0) ∧
    resize_term { env24 with resizeOk := false } 0 0 aliveState
      = some (ERR, aliveState) :=
  ⟨(C5_resize_guard_amended env24 0 0 state0).1 rfl,
   (C5_resize_guard_amended { env24 with resizeOk := false } 0 0
      aliveState).2 rfl⟩

/-- C6: the source of resize_term never writes SP->resized, so after a
successful resize of an alive session with the resized-pending flag set,
is_termresized still reports true, against the claim, the upstream
PDCurses 3.4 behavior, and the in-file description of is_termresized as
true only while a resize_term call is still needed. -/
theorem C6_resize_keeps_resized_flag :
    is_termresized resizedPendingState = some true ∧
    isendwin resizedPendingState = false ∧
    (resize_term env24 0 0 resizedPendingState).map (fun p => p.1) = some OK ∧
    (resize_term env24 0 0 resizedPendingState).map
      (fun p => is_termresized p.2) = some (some true) := by
  decide

/-- C7 counterexample: destroy called with the current null SP as argument
when no session exists is not a no-op: the argument equals SP, so the
guard falls through and the source dereferences the null SP (modelled as
none), instead of returning with the state untouched. -/
theorem C7_null_destroy_counterexample :
    delscreen true state0 ≠ some state0 ∧ delscreen true state0 = none := by
  decide

/-- C7 amended: destroy is a no-op exactly when its argument differs from
the current SP, which covers every stale handle kept from before a
previous destroy; calling it with the null SP value itself while no
session exists dereferences the null session pointer. -/
theorem C7_destroy_guard_amended (s : CState) :
    delscreen false s = some s ∧
    (s.sp = none → delscreen true s = none) := by
  constructor
  · rfl
  · intro h
    simp [delscreen, h]

/-- C7 witness for the amended statement, at the empty state. -/
theorem C7_destroy_guard_amended_witness :
    delscreen false state0 = some state0 ∧ delscreen true state0 = none :=
  ⟨(C7_destroy_guard_amended state0).1, (C7_destroy_guard_amended state0).2 rfl⟩

/-- C8: endwin on an alive session only clears the alive flag: the
resulting state is the original with alive set to false, windows and all
other fields untouched, and the spec-modelled resume restores exactly the
original state. -/
theorem C8_suspend_resume_roundtrip (s : CState) (scr : Screen)
    (h : s.sp = some scr) (ha : scr.alive = true) :
    endwin s = some (OK, { s with sp := some { scr with alive := false } }) ∧
    resume { s with sp := some { scr with alive := false } } = some s := by
  constructor
  · unfold endwin
    rw [h]
  · unfold resume
    have hs : { s with sp := some { scr with alive := true } } = s := by
      cases s
      cases scr
      simp only [CState.mk.injEq] at h ⊢
      simp_all
    simp [hs]

/-- C8 witness: the round trip at the concrete alive state. -/
theorem C8_suspend_resume_roundtrip_witness :
    endwin aliveState
      = some (OK, { aliveState with sp := some { aliveScr with alive := false } }) ∧
    resume { aliveState with sp := some { aliveScr with alive := false } }
      = some aliveState :=
  C8_suspend_resume_roundtrip aliveState aliveScr rfl rfl

/-- C9: isendwin is total at the public interface: with no session it
returns false instead of failing, and with a session it returns the
negation of the alive flag; as a pure function of the state it has no side
effect. -/
theorem C9_isendwin_total (s : CState) (scr : Screen) :
    (s.sp = none → isendwin s = false) ∧
    (s.sp = some scr → isendwin s = !scr.alive) := by
  constructor <;> intro h <;> unfold isendwin <;> rw [h]

/-- C9 witness: the two cases at the empty state and at the alive state. -/
theorem C9_isendwin_total_witness :
    isendwin state0 = false ∧ isendwin aliveState = !aliveScr.alive :=
  ⟨(C9_isendwin_total state0 defaultScreen).1 rfl,
   (C9_isendwin_total aliveState aliveScr).2 rfl⟩

/-- C10: every successful create leaves the fixed mode-flag defaults in
the final session record regardless of the inputs: auto-CR, cbreak and
echo true, raw input and raw output false, resized false; and the defaults
block itself, which runs before any window is created in createBody, also
zeroes both ripped-off-line counters. -/
theorem C10_create_defaults (env : Env) (s : CState) :
    (∀ w t, Xinitscr env s = (CreateResult.ok w, t) →
      ∃ scr, t.sp = some scr ∧ scr.autocr = true ∧ scr.cbreak = true ∧
        scr.echo = true ∧ scr.raw_inp = false ∧ scr.raw_out = false ∧
        scr.resized = false) ∧
    (∀ scr c, (initDefaults scr c).autocr = true ∧
      (initDefaults scr c).cbreak = true ∧
      (initDefaults scr c).echo = true ∧
      (initDefaults scr c).raw_inp = false ∧
      (initDefaults scr c).raw_out = false ∧
      (initDefaults scr c).resized = false ∧
      (initDefaults scr c).linesrippedoffcnt = 0 ∧
      (initDefaults scr c).linesrippedoffontop = 0) := by
  constructor
  · intro w t h
    obtain ⟨scr, hsp, -, hrest⟩ := Xinitscr_ok env s w t h
    exact ⟨scr, hsp, hrest⟩
  · intro scr c
    simp [initDefaults]

/-- C10 witness: the defaults after the concrete 24 by 80 create, and the
defaults block evaluated on the fresh record. -/
theorem C10_create_defaults_witness :
    (∃ scr, (Xinitscr env24 state0).2.sp = some scr ∧ scr.autocr = true ∧
      scr.cbreak = true ∧ scr.echo = true ∧ scr.raw_inp = false ∧
      scr.raw_out = false ∧ scr.resized = false) ∧
    ((initDefaults defaultScreen 1).autocr = true ∧
      (initDefaults defaultScreen 1).cbreak = true ∧
      (initDefaults defaultScreen 1).echo = true ∧
      (initDefaults defaultScreen 1).raw_inp = false ∧
      (initDefaults defaultScreen 1).raw_out = false ∧
      (initDefaults defaultScreen 1).resized = false ∧
      (initDefaults defaultScreen 1).linesrippedoffcnt = 0 ∧
      (initDefaults defaultScreen 1).linesrippedoffontop = 0) :=
  ⟨(C10_create_defaults env24 state0).1 aliveWin (Xinitscr env24 state0).2
      rfl,
   (C10_create_defaults env24 state0).2 defaultScreen 1⟩

end PdcInitscr
